import Mathlib

/-!
Shallow embedding of the `location_app` contact-collection system.

Source of truth:
* `src/unnamed/part_000` — the contact form (`ContactForm`): telemetry
  collection (`getDeviceLocation`, `getVisitorData`) and the persisting
  retry loop (`handleSubmit`).
* `src/purna-location/src/App.jsx` — the admin dashboard
  (`AdminDashboard`): display helpers (`getLocationString`,
  `getCoordinates`, `getGoogleMapsUrl`), the query engine
  (`filteredSubmissions`, `handleSort`, `totalPages`), CSV export
  (`handleExport`) and bulk delete (`handleBulkDelete`).

Modelling conventions:
* JS numbers are modelled as `ℚ` (no NaN; the single relevant use of
  numeric truthiness treats `0` as falsy, which `ℚ` captures).
* JS strings are Lean `String`s; `toLowerCase` is per-character
  lowering, `localeCompare` is code-point comparison.
* A possibly-absent JS value is an `Option`; optional chaining (`?.`)
  short-circuits to `none`.
* Asynchronous external calls (store writes, HTTP lookups, geolocation)
  are modelled by passing their outcomes in as explicit arguments.
* `Array.prototype.sort` is required by the language spec to be stable;
  it is embedded as stable insertion sort (`List.insertionSort`).
-/

namespace LocationApp

/-! ### JavaScript string helpers -/

/-- JS `String.prototype.toLowerCase`, embedded as per-character lowering. -/
def jsToLower (s : String) : String := ⟨s.data.map Char.toLower⟩

/-- JS `String.prototype.includes`: `strIncludes s pat` is true when `pat`
occurs in `s` as a contiguous substring (the empty pattern always occurs). -/
def strIncludes (s pat : String) : Bool :=
  s.data.tails.any fun t => pat.data.isPrefixOf t

/-- JS `value.replace(/"/g, '""')` on the underlying character list:
every double-quote character is doubled. -/
def escQuotes : List Char → List Char
  | [] => []
  | c :: cs => if c = '"' then '"' :: '"' :: escQuotes cs else c :: escQuotes cs

/-- JS `a.localeCompare(b)`, embedded as code-point comparison returning
the sign convention the dashboard's sort comparator relies on. -/
def strCompare (a b : String) : Int :=
  match compare a b with
  | .lt => -1
  | .eq => 0
  | .gt => 1

/-! ### Submission Writer (`handleSubmit` in the contact form) -/

/-- Failure classes of a Firestore `addDoc` call, split exactly as the
source inspects `error.code`: the two terminal codes, and everything else. -/
inductive StoreError where
  | permissionDenied
  | unauthenticated
  | transient (msg : String)
deriving DecidableEq

/-- Result of one `addDoc` attempt. -/
inductive StoreResult where
  | ok (docId : String)
  | err (e : StoreError)
deriving DecidableEq

/-- How the retry loop in `handleSubmit` ends. `terminal` carries the
distinct user-actionable message thrown for a terminal failure class;
`exhausted` carries `lastError`, thrown when the attempt budget is spent;
`fellThrough` marks the (unreachable) exit with the loop condition false. -/
inductive SubmitOutcome where
  | success (docId : String)
  | terminal (msg : String)
  | exhausted (e : StoreError)
  | fellThrough
deriving DecidableEq

/-- Observable trace of one run of the retry loop: its outcome, how many
`addDoc` attempts were made, and the backoff delays (in milliseconds)
awaited between consecutive attempts, in order. -/
structure SubmitTrace where
  outcome : SubmitOutcome
  attempts : Nat
  delays : List Nat
deriving DecidableEq

/-- Message thrown by the source on `error.code === 'permission-denied'`. -/
def permissionDeniedMsg : String :=
  "Permission denied. Please check your Firebase security rules."

/-- Message thrown by the source on `error.code === 'unauthenticated'`. -/
def unauthenticatedMsg : String :=
  "Authentication required. Please check your Firebase configuration."

/-- The `while (retryCount < maxRetries)` loop of `handleSubmit`.
`outcomes k` is the store's response to the `addDoc` call with
`retryCount = k`; `fuel = maxRetries - retryCount` makes the recursion
structural. On a non-terminal failure the loop increments `retryCount`,
rethrows `lastError` once `retryCount === maxRetries`, and otherwise waits
`Math.pow(2, retryCount) * 1000` milliseconds before the next attempt. -/
def submitLoop (outcomes : Nat → StoreResult) (maxRetries : Nat) :
    Nat → Nat → List Nat → SubmitTrace
  | 0, retryCount, delays => ⟨.fellThrough, retryCount, delays.reverse⟩
  | fuel + 1, retryCount, delays =>
    match outcomes retryCount with
    | .ok docId => ⟨.success docId, retryCount + 1, delays.reverse⟩
    | .err e =>
      match e with
      | .permissionDenied => ⟨.terminal permissionDeniedMsg, retryCount + 1, delays.reverse⟩
      | .unauthenticated => ⟨.terminal unauthenticatedMsg, retryCount + 1, delays.reverse⟩
      | .transient m =>
        if retryCount + 1 = maxRetries then
          ⟨.exhausted (.transient m), retryCount + 1, delays.reverse⟩
        else
          submitLoop outcomes maxRetries fuel (retryCount + 1)
            (2 ^ (retryCount + 1) * 1000 :: delays)

/-- The persisting part of `handleSubmit`: the retry loop entered with
`retryCount = 0`, `maxRetries = 3` and no delays awaited yet. -/
def handleSubmit (outcomes : Nat → StoreResult) : SubmitTrace :=
  submitLoop outcomes 3 3 0 []

/-! ### Telemetry collection (`getVisitorData` in the contact form) -/

/-- Coordinates delivered by a successful `getCurrentPosition` call. -/
structure DeviceCoords where
  latitude : ℚ
  longitude : ℚ
  accuracy : ℚ
deriving DecidableEq

/-- Optional fields of the ipinfo.io JSON response. -/
structure IpGeoData where
  city : Option String
  region : Option String
  country : Option String
  postal : Option String
  timezone : Option String
deriving DecidableEq

/-- The `location` object assembled inside `visitorData`: device
coordinates (nulled out when device geolocation failed) plus IP-derived
strings defaulted to `"Unknown"`. -/
structure VisitorLocation where
  latitude : Option ℚ
  longitude : Option ℚ
  accuracy : Option ℚ
  city : String
  region : String
  country : String
  postal : String
  timezone : String
deriving DecidableEq

/-- Synchronously read device metadata; always available. -/
structure DeviceDetails where
  userAgent : String
  screenResolution : String
  language : String
  timezone : String
  platform : String
  vendor : String
  cookiesEnabled : Bool
  doNotTrack : String
  online : Bool
deriving DecidableEq

/-- The fully assembled `visitorData` object. -/
structure VisitorData where
  ip : String
  location : VisitorLocation
  deviceDetails : DeviceDetails
  timestamp : String
deriving DecidableEq

/-- JS `x || 'Unknown'` on an optional JSON string field: a missing or
empty (falsy) value is replaced by `"Unknown"`. -/
def orUnknown : Option String → String
  | none => "Unknown"
  | some s => if s = "" then "Unknown" else s

/-- The `getVisitorData` pipeline. `ipRes` is the ipify lookup outcome,
`deviceRes` the device-geolocation outcome, `ipGeoRes ip` the ipinfo
lookup outcome for the obtained IP, `deviceDetails` the synchronous
device metadata and `now` the enrichment timestamp. A failed IP lookup or
a failed IP-geo lookup throws into the surrounding catch, which returns
`null`; a failed device geolocation is caught locally and replaced by
`{latitude: null, longitude: null, accuracy: null}`. -/
def getVisitorData (ipRes : Except String String)
    (deviceRes : Except String DeviceCoords)
    (ipGeoRes : String → Except String IpGeoData)
    (deviceDetails : DeviceDetails) (now : String) : Option VisitorData :=
  match ipRes with
  | .error _ => none
  | .ok ip =>
    let deviceLocation : Option DeviceCoords :=
      match deviceRes with
      | .ok d => some d
      | .error _ => none
    match ipGeoRes ip with
    | .error _ => none
    | .ok locationData =>
      some
        { ip := ip
          location :=
            { latitude := deviceLocation.map (·.latitude)
              longitude := deviceLocation.map (·.longitude)
              accuracy := deviceLocation.map (·.accuracy)
              city := orUnknown locationData.city
              region := orUnknown locationData.region
              country := orUnknown locationData.country
              postal := orUnknown locationData.postal
              timezone := orUnknown locationData.timezone }
          deviceDetails := deviceDetails
          timestamp := now }

/-! ### Dashboard display helpers -/

/-- The raw `data.visitorData?.location` object as the dashboard reads it
back from the store: every field it touches may be absent. -/
structure DashLocation where
  latitude : Option ℚ
  longitude : Option ℚ
  city : Option String
  region : Option String
  country : Option String
deriving DecidableEq

/-- One `if (location.f) parts.push(location.f)` step: keeps the value
exactly when it is present and JS-truthy (non-empty). -/
def pushIfTruthy : Option String → List String
  | none => []
  | some s => if s = "" then [] else [s]

/-- The dashboard's `getLocationString`: `'N/A'` for an absent location,
otherwise the truthy members of city/region/country joined by `', '`,
falling back to `'N/A'` when none survives. -/
def getLocationString : Option DashLocation → String
  | none => "N/A"
  | some loc =>
    let parts := pushIfTruthy loc.city ++ pushIfTruthy loc.region ++ pushIfTruthy loc.country
    if parts.length > 0 then String.intercalate ", " parts else "N/A"

/-- Template rendering of the JS number standing behind a coordinate. -/
def numStr (q : ℚ) : String := toString q

/-- The dashboard's `getCoordinates`: the template string
`` `${latitude}, ${longitude}` `` exactly when `location?.latitude` and
`location?.longitude` are both JS-truthy (present and nonzero). -/
def getCoordinates : Option DashLocation → Option String
  | none => none
  | some l =>
    match l.latitude, l.longitude with
    | some la, some lo =>
      if la ≠ 0 ∧ lo ≠ 0 then some (numStr la ++ ", " ++ numStr lo) else none
    | _, _ => none

/-- The dashboard's `getGoogleMapsUrl`: the map link built from
`getCoordinates`, or `null` when there are no coordinates. -/
def getGoogleMapsUrl (loc : Option DashLocation) : Option String :=
  match getCoordinates loc with
  | some coords => some ("https://www.google.com/maps?q=" ++ coords)
  | none => none

/-! ### Dashboard rows and the query engine -/

/-- The keys of the `visibleColumns` state object. -/
inductive ColKey where
  | name
  | email
  | message
  | submittedAt
  | ipAddress
  | location
  | deviceInfo
  | screenResolution
deriving DecidableEq

/-- Declaration (insertion) order of the `visibleColumns` keys, which is
the order `Object.entries` iterates them in. -/
def declaredColumns : List ColKey :=
  [.name, .email, .message, .submittedAt, .ipAddress, .location, .deviceInfo, .screenResolution]

/-- The JS property name of each column key. -/
def colName : ColKey → String
  | .name => "name"
  | .email => "email"
  | .message => "message"
  | .submittedAt => "submittedAt"
  | .ipAddress => "ipAddress"
  | .location => "location"
  | .deviceInfo => "deviceInfo"
  | .screenResolution => "screenResolution"

/-- A dashboard field value: a JS string, or a JS `Date` carried by its
string rendering (only `toString` observes it downstream). -/
inductive JSVal where
  | str (s : String)
  | date (s : String)
deriving DecidableEq

/-- JS `value.toString()` for a field value. -/
def JSVal.toStr : JSVal → String
  | .str s => s
  | .date s => s

/-- JS truthiness of an optional field value: `undefined` and `''` are
falsy, a `Date` object and a non-empty string are truthy. -/
def jsTruthy : Option JSVal → Bool
  | none => false
  | some (.str s) => s ≠ ""
  | some (.date _) => true

/-- One row of the dashboard table, as produced by `fetchSubmissions`:
the eight filterable/sortable/exportable columns plus the document id.
Each column is optional, matching the defensive `submission[key]?.`
access in the source. -/
structure Submission where
  id : String
  name : Option JSVal
  email : Option JSVal
  message : Option JSVal
  submittedAt : Option JSVal
  ipAddress : Option JSVal
  location : Option JSVal
  deviceInfo : Option JSVal
  screenResolution : Option JSVal
deriving DecidableEq

/-- Property access `submission[key]` for a column key. -/
def Submission.get : Submission → ColKey → Option JSVal
  | s, .name => s.name
  | s, .email => s.email
  | s, .message => s.message
  | s, .submittedAt => s.submittedAt
  | s, .ipAddress => s.ipAddress
  | s, .location => s.location
  | s, .deviceInfo => s.deviceInfo
  | s, .screenResolution => s.screenResolution

/-- The filter predicate shared by `filteredSubmissions` and
`handleExport`: `Object.entries(visibleColumns).some(([key, visible]) =>
visible && submission[key]?.toString().toLowerCase().includes(searchTerm.toLowerCase()))`. -/
def matchesSearch (visible : ColKey → Bool) (searchTerm : String) (s : Submission) : Bool :=
  declaredColumns.any fun k =>
    visible k &&
      match s.get k with
      | none => false
      | some v => strIncludes (jsToLower v.toStr) (jsToLower searchTerm)

/-- The `.filter(...)` stage of `filteredSubmissions`. -/
def filterSubmissions (visible : ColKey → Bool) (searchTerm : String)
    (subs : List Submission) : List Submission :=
  subs.filter (matchesSearch visible searchTerm)

/-- Sort direction strings `'asc'` / `'desc'`. -/
inductive SortDir where
  | asc
  | desc
deriving DecidableEq

/-- The `sortConfig` state value. -/
structure SortConfig where
  key : ColKey
  direction : SortDir
deriving DecidableEq

/-- Initial sort configuration `{ key: 'submittedAt', direction: 'desc' }`. -/
def initialSortConfig : SortConfig := ⟨.submittedAt, .desc⟩

/-- The dashboard's `handleSort`: the clicked key becomes the sort key;
the direction is `'desc'` exactly when the same key was already selected
with direction `'asc'`, else `'asc'`. -/
def handleSort (k : ColKey) (prev : SortConfig) : SortConfig :=
  ⟨k, if prev.key = k ∧ prev.direction = .asc then .desc else .asc⟩

/-- The `.sort((a, b) => ...)` comparator of `filteredSubmissions`:
`0` when either side's sort-key value is falsy, otherwise a
case-insensitive `localeCompare` of the two string renderings, with the
operands swapped for direction `'desc'`. -/
def compareSubmissions (cfg : SortConfig) (a b : Submission) : Int :=
  if !(jsTruthy (a.get cfg.key)) || !(jsTruthy (b.get cfg.key)) then 0
  else
    match a.get cfg.key, b.get cfg.key with
    | some av, some bv =>
      match cfg.direction with
      | .asc => strCompare (jsToLower av.toStr) (jsToLower bv.toStr)
      | .desc => strCompare (jsToLower bv.toStr) (jsToLower av.toStr)
    | _, _ => 0

/-- The placement relation the stable sort realises: `a` may stay left of
`b` when the comparator does not order `b` strictly before `a`. -/
def sortLE (cfg : SortConfig) (a b : Submission) : Prop :=
  compareSubmissions cfg a b ≤ 0

instance (cfg : SortConfig) : DecidableRel (sortLE cfg) :=
  fun _ _ => Int.decLe _ _

/-- The `.sort(...)` stage, embedded as stable insertion sort. -/
def sortSubmissions (cfg : SortConfig) (l : List Submission) : List Submission :=
  List.insertionSort (sortLE cfg) l

/-- The dashboard's `filteredSubmissions` derivation: filter, then sort. -/
def filteredSubmissions (visible : ColKey → Bool) (searchTerm : String)
    (cfg : SortConfig) (subs : List Submission) : List Submission :=
  sortSubmissions cfg (filterSubmissions visible searchTerm subs)

/-! ### Pagination -/

/-- The fixed page size. -/
def itemsPerPage : Nat := 10

/-- The dashboard's `totalPages`:
`Math.ceil(filteredSubmissions.length / itemsPerPage)`. -/
def totalPages (count : Nat) : Nat :=
  (⌈(count : ℚ) / (itemsPerPage : ℚ)⌉).toNat

/-- The Previous button: `setCurrentPage(prev => Math.max(prev - 1, 1))`. -/
def prevPageClick (p : Nat) : Nat := max (p - 1) 1

/-- The Next button:
`setCurrentPage(prev => Math.min(prev + 1, totalPages))`. -/
def nextPageClick (tp p : Nat) : Nat := min (p + 1) tp

/-- The dashboard's `paginatedSubmissions`:
`filteredSubmissions.slice((currentPage - 1) * itemsPerPage, currentPage * itemsPerPage)`
for a current page `p ≥ 1`. -/
def paginatedSubmissions (p : Nat) (l : List Submission) : List Submission :=
  (l.drop ((p - 1) * itemsPerPage)).take itemsPerPage

/-! ### Bulk delete -/

/-- The dashboard state the bulk-delete handler touches. -/
structure DashState where
  submissions : List Submission
  selectedItems : List String
  error : Option String
deriving DecidableEq

/-- The dashboard's `handleBulkDelete` after the user confirms, together
with the store's resulting contents. `fails i` tells whether the store
fails the `deleteDoc` for id `i`. All deletes are issued, so every
selected id whose delete succeeds leaves the store; `Promise.all` rejects
when any delete fails, in which case only `setError` runs (the source
appends the rejection's message to the fixed prefix; the embedding keeps
the prefix). On full success the in-memory view drops the selected rows
and the selection is cleared. -/
def handleBulkDelete (fails : String → Bool) (store : List Submission)
    (st : DashState) : DashState × List Submission :=
  let store' := store.filter fun r => !(st.selectedItems.contains r.id) || fails r.id
  if st.selectedItems.any fails then
    ({ st with error := some "Error deleting submissions: " }, store')
  else
    ({ st with
        submissions := st.submissions.filter fun s => !(st.selectedItems.contains s.id)
        selectedItems := [] }, store')

/-! ### CSV export -/

/-- The dashboard's `handleExport` CSV text (`csvContent`): the joined
header of visible keys, then one joined row per record passing the same
filter predicate as the table. A string value is quoted with inner quotes
doubled; a `Date` value joins as its string rendering; an absent value
joins as the empty string (JS `Array.prototype.join` renders `undefined`
as `''`). -/
def handleExport (visible : ColKey → Bool) (searchTerm : String)
    (subs : List Submission) : String :=
  let filteredData := subs.filter fun s =>
    declaredColumns.any fun k =>
      visible k &&
        match s.get k with
        | none => false
        | some v => strIncludes (jsToLower v.toStr) (jsToLower searchTerm)
  String.intercalate "\n"
    ((String.intercalate "," ((declaredColumns.filter fun k => visible k).map colName)) ::
      filteredData.map fun s =>
        String.intercalate ","
          ((declaredColumns.filter fun k => visible k).map fun k =>
            match s.get k with
            | some (.str v) => "\"" ++ String.mk (escQuotes v.data) ++ "\""
            | some (.date d) => d
            | none => ""))

/-! ### Spec-side formulations, for comparison with the source embeddings -/

/-- Spec-side filter predicate, phrased as the specification states it:
some visible column's field, converted to a string, contains the search
term as a case-insensitive substring. -/
def specMatches (visible : ColKey → Bool) (term : String) (s : Submission) : Prop :=
  ∃ k, visible k = true ∧ ∃ v, s.get k = some v ∧
    strIncludes (jsToLower v.toStr) (jsToLower term) = true

/-- Spec-side CSV quoting: wrap in double quotes, doubling inner quotes. -/
def escapeCsv (s : String) : String :=
  "\"" ++ String.mk (escQuotes s.data) ++ "\""

/-- Spec-side CSV cell: string values quoted, `Date` values rendered raw,
missing values serialised as empty. -/
def csvCell : Option JSVal → String
  | some (.str s) => escapeCsv s
  | some (.date d) => d
  | none => ""

/-- The visible columns in their declared order. -/
def visibleKeys (visible : ColKey → Bool) : List ColKey :=
  declaredColumns.filter fun k => visible k

/-- Spec-side CSV header row: the visible column names in declared order. -/
def csvHeader (visible : ColKey → Bool) : String :=
  String.intercalate "," ((visibleKeys visible).map colName)

/-- Spec-side CSV data row: the visible columns of one record. -/
def csvRow (visible : ColKey → Bool) (s : Submission) : String :=
  String.intercalate "," ((visibleKeys visible).map fun k => csvCell (s.get k))

/-! ### Concrete sample data for counterexamples and witnesses -/

/-- A fully populated dashboard row with id `"A"`. -/
def subA : Submission :=
  ⟨"A", some (.str "Alice"), some (.str "alice@example.com"), some (.str "hello"),
    some (.date "Mon Jan 01 2024 10:00:00"), some (.str "1.2.3.4"),
    some (.str "Colombo, Western, LK"), some (.str "MacIntel"), some (.str "1920x1080")⟩

/-- A fully populated dashboard row with id `"B"`. -/
def subB : Submission :=
  ⟨"B", some (.str "Bob"), some (.str "bob@example.com"), some (.str "hey"),
    some (.date "Tue Jan 02 2024 11:00:00"), some (.str "5.6.7.8"),
    some (.str "Kandy, Central, LK"), some (.str "Win32"), some (.str "1366x768")⟩

/-- A row with id `"C"` missing its `submittedAt`, `location`,
`deviceInfo` and `screenResolution` fields. -/
def subC : Submission :=
  ⟨"C", some (.str "Cara"), some (.str "cara@example.com"), some (.str "yo"),
    none, some (.str "9.9.9.9"), none, none, none⟩

/-- A row whose name carries a comma and embedded quotes, with every
other field missing. -/
def janeSub : Submission :=
  ⟨"J", some (.str "Jane \"JJ\" Doe, Esq."), none, none, none, none, none, none, none⟩

/-- Store behaviour that fails exactly the delete of id `"B"`. -/
def failsOnlyB : String → Bool := fun i => i == "B"

/-- Write outcomes that fail transiently on the first attempt and with
permission denied on every later one. -/
def transientThenDenied : Nat → StoreResult :=
  fun j => if j = 0 then .err (.transient "unavailable") else .err .permissionDenied

/-- Column-visibility state with every column hidden. -/
def noVisibleColumns : ColKey → Bool := fun _ => false

/-- Column-visibility state exposing only `name` and `email`. -/
def onlyNameEmail : ColKey → Bool
  | .name => true
  | .email => true
  | _ => false

/-- A location on the equator: latitude `0` is present but JS-falsy. -/
def equatorLoc : DashLocation := ⟨some 0, some 10, none, none, none⟩

/-- A location whose only present display member is the empty city. -/
def emptyCityLoc : DashLocation := ⟨none, none, some "", none, none⟩

/-- Sample synchronous device metadata. -/
def sampleDeviceDetails : DeviceDetails :=
  ⟨"Mozilla/5.0", "1920x1080", "en-US", "Asia/Colombo", "MacIntel", "Apple", true, "1", true⟩

/-! ### Helper lemmas -/

/-- Every string contains the empty pattern (JS `includes('')`). -/
theorem strIncludes_empty (s : String) : strIncludes s "" = true := by
  cases s with
  | mk d => cases d <;> simp [strIncludes, List.isPrefixOf]

/-- Every column key occurs in the declared column list. -/
theorem mem_declaredColumns (k : ColKey) : k ∈ declaredColumns := by
  cases k <;> simp [declaredColumns]

/-- The source's filter predicate agrees with the spec-side one. -/
theorem matchesSearch_iff (visible : ColKey → Bool) (term : String) (s : Submission) :
    matchesSearch visible term s = true ↔ specMatches visible term s := by
  unfold matchesSearch specMatches
  rw [List.any_eq_true]
  constructor
  · rintro ⟨k, -, hk⟩
    rw [Bool.and_eq_true] at hk
    refine ⟨k, hk.1, ?_⟩
    rcases hg : s.get k with - | v
    · rw [hg] at hk
      exact absurd hk.2 (by simp)
    · rw [hg] at hk
      exact ⟨v, rfl, hk.2⟩
  · rintro ⟨k, hv, v, hg, hi⟩
    refine ⟨k, mem_declaredColumns k, ?_⟩
    rw [Bool.and_eq_true, hg]
    exact ⟨hv, hi⟩

/-- Nat form of the page-count ceiling. -/
theorem totalPages_eq_ceilDiv (n : Nat) :
    totalPages n = (n + itemsPerPage - 1) / itemsPerPage := by
  have hk : ∀ k : ℕ, n ≤ 10 * k → 10 * k < n + 10 →
      (⌈(n : ℚ) / (10 : ℚ)⌉ : ℤ) = (k : ℤ) := by
    intro k hk1 hk2
    have hk1q : (n : ℚ) ≤ 10 * (k : ℚ) := by exact_mod_cast hk1
    have hk2q : (10 : ℚ) * (k : ℚ) < (n : ℚ) + 10 := by exact_mod_cast hk2
    rw [Int.ceil_eq_iff]
    constructor
    · rw [lt_div_iff₀ (by norm_num : (0 : ℚ) < 10)]
      push_cast
      linarith
    · rw [div_le_iff₀ (by norm_num : (0 : ℚ) < 10)]
      push_cast
      linarith
  unfold totalPages itemsPerPage
  have hcast : ((10 : ℕ) : ℚ) = (10 : ℚ) := by norm_num
  rw [hcast, hk ((n + 9) / 10) (by omega) (by omega)]
  simp only [Int.toNat_natCast]
  omega

/-! ### Claim theorems -/

/-- C1 (corrected): when every store write fails with a transient error,
`handleSubmit` makes exactly 3 attempts and surfaces the last observed
error, but the delay before attempt `k+1` is `2^k` seconds for `k = 1, 2`
only: the backoff waits are 2s then 4s, not the claimed 1s/2s/4s. -/
theorem c1_retry_backoff (outcomes : Nat → StoreResult) (m0 m1 m2 : String)
    (h0 : outcomes 0 = .err (.transient m0)) (h1 : outcomes 1 = .err (.transient m1))
    (h2 : outcomes 2 = .err (.transient m2)) :
    handleSubmit outcomes = ⟨.exhausted (.transient m2), 3, [2000, 4000]⟩ := by
  simp [handleSubmit, submitLoop, h0, h1, h2]

/-- C1 witness: three concrete transient failures. -/
theorem c1_retry_backoff_witness :
    handleSubmit (fun _ => .err (.transient "unavailable")) =
      ⟨.exhausted (.transient "unavailable"), 3, [2000, 4000]⟩ :=
  c1_retry_backoff (fun _ => .err (.transient "unavailable"))
    "unavailable" "unavailable" "unavailable" rfl rfl rfl

/-- C1 counterexample: with three transient failures the delays awaited
between attempts are 2000ms and 4000ms; no 1-second delay occurs, so the
claimed 1s/2s/4s schedule is wrong. -/
theorem c1_counterexample :
    (handleSubmit (fun _ => .err (.transient "unavailable"))).delays = [2000, 4000] ∧
    1000 ∉ (handleSubmit (fun _ => .err (.transient "unavailable"))).delays ∧
    (handleSubmit (fun _ => .err (.transient "unavailable"))).delays ≠ [1000, 2000, 4000] := by
  decide

/-- C2 (confirmed): a permission-denied or unauthenticated store failure
on any attempt `k` (reached after transient failures on the earlier
attempts, the only way a later attempt is reached) ends `handleSubmit`
immediately with exactly `k + 1` attempts — in particular a first-attempt
permission-denied failure gives exactly one attempt — carrying the
distinct user-actionable message for that class; the two terminal
messages differ from each other and a terminal outcome is never an
exhausted-retries outcome. -/
theorem c2_terminal_no_retry (outcomes : Nat → StoreResult) (k : Nat) :
    (k < 3 → (∀ j, j < k → ∃ m, outcomes j = .err (.transient m)) →
      (outcomes k = .err .permissionDenied →
        handleSubmit outcomes =
          ⟨.terminal permissionDeniedMsg, k + 1, List.take k [2000, 4000]⟩) ∧
      (outcomes k = .err .unauthenticated →
        handleSubmit outcomes =
          ⟨.terminal unauthenticatedMsg, k + 1, List.take k [2000, 4000]⟩)) ∧
    permissionDeniedMsg ≠ unauthenticatedMsg ∧
    (∀ m e, SubmitOutcome.terminal m ≠ SubmitOutcome.exhausted e) := by
  refine ⟨fun hk hprev => ?_, by decide, fun m e => by simp⟩
  interval_cases k
  · exact ⟨fun ht => by simp [handleSubmit, submitLoop, ht],
      fun ht => by simp [handleSubmit, submitLoop, ht]⟩
  · obtain ⟨m0, h0⟩ := hprev 0 (by omega)
    exact ⟨fun ht => by simp [handleSubmit, submitLoop, h0, ht],
      fun ht => by simp [handleSubmit, submitLoop, h0, ht]⟩
  · obtain ⟨m0, h0⟩ := hprev 0 (by omega)
    obtain ⟨m1, h1⟩ := hprev 1 (by omega)
    exact ⟨fun ht => by simp [handleSubmit, submitLoop, h0, h1, ht],
      fun ht => by simp [handleSubmit, submitLoop, h0, h1, ht]⟩

/-- C2 witness: a transient first attempt followed by a second-attempt
permission-denied failure stops after exactly 2 attempts with the
terminal message and only the first backoff wait. -/
theorem c2_terminal_no_retry_witness :
    handleSubmit transientThenDenied = ⟨.terminal permissionDeniedMsg, 2, [2000]⟩ :=
  ((c2_terminal_no_retry transientThenDenied 1).1 (by decide)
    (by
      intro j hj
      interval_cases j
      exact ⟨"unavailable", rfl⟩)).1 rfl

/-- C4 (confirmed): if the IP-geo lookup fails, `getVisitorData` returns
`none` — no partially filled record; if instead device geolocation fails
while the IP-geo lookup succeeds, nulled coordinates are substituted and
a full `visitorData` object is still produced. -/
theorem c4_enrichment_asymmetry (ip emsg : String)
    (deviceRes : Except String DeviceCoords)
    (ipGeoRes : String → Except String IpGeoData)
    (dd : DeviceDetails) (now : String) :
    (∀ e, ipGeoRes ip = .error e →
      getVisitorData (.ok ip) deviceRes ipGeoRes dd now = none) ∧
    (∀ ld, ipGeoRes ip = .ok ld →
      getVisitorData (.ok ip) (.error emsg) ipGeoRes dd now =
        some
          { ip := ip
            location :=
              { latitude := none, longitude := none, accuracy := none
                city := orUnknown ld.city, region := orUnknown ld.region
                country := orUnknown ld.country, postal := orUnknown ld.postal
                timezone := orUnknown ld.timezone }
            deviceDetails := dd
            timestamp := now }) := by
  constructor
  · intro e he
    cases hd : deviceRes <;> simp [getVisitorData, he, hd]
  · intro ld hld
    simp [getVisitorData, hld]

/-- C4 witness: concrete failed device geolocation with a successful but
field-less IP-geo response yields the full defaulted record. -/
theorem c4_enrichment_asymmetry_witness :
    getVisitorData (.ok "1.2.3.4") (.error "denied")
        (fun _ => .ok ⟨none, none, none, none, none⟩) sampleDeviceDetails "t0" =
      some ⟨"1.2.3.4",
        ⟨none, none, none, "Unknown", "Unknown", "Unknown", "Unknown", "Unknown"⟩,
        sampleDeviceDetails, "t0"⟩ :=
  (c4_enrichment_asymmetry "1.2.3.4" "denied" (.error "denied")
      (fun _ => .ok ⟨none, none, none, none, none⟩) sampleDeviceDetails "t0").2
    ⟨none, none, none, none, none⟩ rfl

/-- C3 (corrected): on a partial bulk-delete failure an error is surfaced
and the selection is not cleared, and at the store the succeeded deletes
stay deleted while the failed ones remain; but the in-memory view is left
entirely unchanged (successfully deleted rows are not removed from it).
On full success the view drops the selected rows and the selection is
cleared. -/
theorem c3_bulk_delete (fails : String → Bool) (store : List Submission) (st : DashState) :
    (st.selectedItems.any fails = true →
      (handleBulkDelete fails store st).1.error.isSome = true ∧
      (handleBulkDelete fails store st).1.submissions = st.submissions ∧
      (handleBulkDelete fails store st).1.selectedItems = st.selectedItems) ∧
    (st.selectedItems.any fails = false →
      (handleBulkDelete fails store st).1.submissions =
        st.submissions.filter (fun s => !(st.selectedItems.contains s.id)) ∧
      (handleBulkDelete fails store st).1.selectedItems = [] ∧
      (handleBulkDelete fails store st).1.error = st.error) ∧
    (∀ r ∈ store, st.selectedItems.contains r.id = true → fails r.id = false →
      r ∉ (handleBulkDelete fails store st).2) ∧
    (∀ r ∈ store, fails r.id = true → r ∈ (handleBulkDelete fails store st).2) ∧
    (∀ r ∈ store, st.selectedItems.contains r.id = false →
      r ∈ (handleBulkDelete fails store st).2) := by
  by_cases h : st.selectedItems.any fails = true
  · refine ⟨fun _ => ⟨?_, ?_, ?_⟩, fun hf => absurd h (by simp [hf]), ?_, ?_, ?_⟩ <;>
      simp [handleBulkDelete, h, List.mem_filter]
    · intro r hr hsel hfail
      simp [hsel, hfail]
    · intro r hr hfail
      simp [hr, hfail]
    · intro r hr hsel
      simp [hr, hsel]
  · rw [Bool.not_eq_true] at h
    refine ⟨fun ht => absurd ht (by simp [h]), fun _ => ⟨?_, ?_, ?_⟩, ?_, ?_, ?_⟩ <;>
      simp [handleBulkDelete, h, List.mem_filter]
    · intro r hr hsel hfail
      simp [hsel, hfail]
    · intro r hr hfail
      simp [hr, hfail]
    · intro r hr hsel
      simp [hr, hsel]

/-- C3 witness: deleting `{A, B}` where only B's delete fails surfaces an
error, keeps the selection, removes A from the store but not B. -/
theorem c3_bulk_delete_witness :
    (handleBulkDelete failsOnlyB [subA, subB] ⟨[subA, subB], ["A", "B"], none⟩).1.error.isSome
        = true ∧
    (handleBulkDelete failsOnlyB [subA, subB] ⟨[subA, subB], ["A", "B"], none⟩).1.selectedItems
        = ["A", "B"] ∧
    subA ∉ (handleBulkDelete failsOnlyB [subA, subB] ⟨[subA, subB], ["A", "B"], none⟩).2 ∧
    subB ∈ (handleBulkDelete failsOnlyB [subA, subB] ⟨[subA, subB], ["A", "B"], none⟩).2 := by
  have h := c3_bulk_delete failsOnlyB [subA, subB] ⟨[subA, subB], ["A", "B"], none⟩
  exact ⟨(h.1 (by decide)).1, (h.1 (by decide)).2.2,
    h.2.2.1 subA (by decide) (by decide) (by decide),
    h.2.2.2.1 subB (by decide) (by decide)⟩

/-- C3 counterexample: with `{A, B}` selected and only B's delete
failing, the in-memory view still contains A (indeed it is unchanged),
contradicting the claim that A is removed from the view. -/
theorem c3_counterexample :
    (handleBulkDelete failsOnlyB [subA, subB] ⟨[subA, subB], ["A", "B"], none⟩).1.submissions
        = [subA, subB] ∧
    subA ∈ (handleBulkDelete failsOnlyB [subA, subB] ⟨[subA, subB], ["A", "B"], none⟩).1.submissions ∧
    subA ∉ (handleBulkDelete failsOnlyB [subA, subB] ⟨[subA, subB], ["A", "B"], none⟩).2 := by
  decide

/-- C5 (corrected): a record passes the filter iff some visible column's
field is present and its string form contains the search term
case-insensitively; with the empty search term a record passes iff some
visible column's field is present — so the full record set is returned
when every record has some visible field, but a record with no visible
present field (for instance when all columns are hidden) does not pass. -/
theorem c5_filter_predicate (visible : ColKey → Bool) (term : String) (s : Submission)
    (l : List Submission) :
    (matchesSearch visible term s = true ↔ specMatches visible term s) ∧
    (matchesSearch visible "" s = true ↔
      ∃ k, visible k = true ∧ (s.get k).isSome = true) ∧
    ((∀ t ∈ l, matchesSearch visible "" t = true) →
      filterSubmissions visible "" l = l) := by
  refine ⟨matchesSearch_iff visible term s, ?_, fun hall => List.filter_eq_self.mpr hall⟩
  rw [matchesSearch_iff]
  unfold specMatches
  constructor
  · rintro ⟨k, hv, v, hg, -⟩
    exact ⟨k, hv, by simp [hg]⟩
  · rintro ⟨k, hv, hs⟩
    rcases Option.isSome_iff_exists.mp hs with ⟨v, hv'⟩
    exact ⟨k, hv, v, hv', strIncludes_empty (jsToLower v.toStr)⟩

/-- C5 witness: with all columns visible and an empty term, a concrete
record passes and a one-record list is returned unchanged. -/
theorem c5_filter_predicate_witness :
    matchesSearch (fun _ => true) "" subA = true ∧
    filterSubmissions (fun _ => true) "" [subA] = [subA] := by
  have h := c5_filter_predicate (fun _ => true) "" subA [subA]
  exact ⟨h.2.1.mpr ⟨ColKey.name, rfl, by decide⟩, h.2.2 (by decide)⟩

/-- C5 counterexample: with every column hidden and the empty search
term, a fully populated record does not pass the filter, so filtering
does not return the full record set. -/
theorem c5_counterexample :
    matchesSearch noVisibleColumns "" subA = false ∧
    filterSubmissions noVisibleColumns "" [subA] ≠ [subA] := by
  decide

/-- C6 (confirmed): the page count is the ceiling of the filtered count
divided by the page size 10; the Previous/Next handlers clamp to the
interval `[1, totalPages]` instead of erroring; and an empty filter
result yields 0 pages (and an empty page) without error. -/
theorem c6_pagination (n tp p : Nat) (visible : ColKey → Bool) (term : String)
    (subs : List Submission) :
    totalPages n = (n + itemsPerPage - 1) / itemsPerPage ∧
    1 ≤ prevPageClick p ∧
    (1 ≤ p → p ≤ tp → prevPageClick p ≤ tp) ∧
    nextPageClick tp p ≤ tp ∧
    (1 ≤ p → 1 ≤ tp → 1 ≤ nextPageClick tp p) ∧
    (filterSubmissions visible term subs = [] →
      totalPages (filterSubmissions visible term subs).length = 0 ∧
      paginatedSubmissions p (filterSubmissions visible term subs) = []) := by
  refine ⟨totalPages_eq_ceilDiv n, ?_, ?_, ?_, ?_, fun hemp => ?_⟩
  · unfold prevPageClick
    omega
  · unfold prevPageClick
    omega
  · unfold nextPageClick
    omega
  · unfold nextPageClick
    omega
  · rw [hemp]
    refine ⟨?_, by simp [paginatedSubmissions]⟩
    rw [List.length_nil, totalPages_eq_ceilDiv]
    rfl

/-- C6 witness: concrete page counts and clamped navigation. -/
theorem c6_pagination_witness :
    totalPages 21 = 3 ∧ prevPageClick 1 ≤ 3 ∧ 1 ≤ nextPageClick 3 1 ∧
    totalPages (filterSubmissions noVisibleColumns "z" [subA]).length = 0 := by
  have h := c6_pagination 21 3 1 noVisibleColumns "z" [subA]
  exact ⟨h.1.trans (by decide), h.2.2.1 (by decide) (by decide),
    h.2.2.2.2.1 (by decide) (by decide), (h.2.2.2.2.2 (by decide)).1⟩

/-- C7 (corrected): the coordinates string and the map link are produced
exactly when both latitude and longitude are present AND nonzero (JS
truthiness makes a present `0` coordinate behave as absent); when both
hold, the string is the `"<lat>, <lng>"` template and the link is the
map URL built from it; a record with absent location gets no map link. -/
theorem c7_coordinates (loc : Option DashLocation) :
    ((getCoordinates loc).isSome = true ↔
      ∃ l la lo, loc = some l ∧ l.latitude = some la ∧ l.longitude = some lo ∧
        la ≠ 0 ∧ lo ≠ 0) ∧
    (∀ l la lo, loc = some l → l.latitude = some la → l.longitude = some lo →
      la ≠ 0 → lo ≠ 0 →
      getCoordinates loc = some (numStr la ++ ", " ++ numStr lo) ∧
      getGoogleMapsUrl loc =
        some ("https://www.google.com/maps?q=" ++ (numStr la ++ ", " ++ numStr lo))) ∧
    (getGoogleMapsUrl loc).isSome = (getCoordinates loc).isSome ∧
    (loc = none → getGoogleMapsUrl loc = none) := by
  refine ⟨?_, ?_, ?_, ?_⟩
  · cases loc with
    | none => simp [getCoordinates]
    | some l =>
      rcases hla : l.latitude with - | la <;> rcases hlo : l.longitude with - | lo <;>
        simp [getCoordinates, hla, hlo]
  · rintro l la lo rfl hla hlo h1 h2
    have hc : getCoordinates (some l) = some (numStr la ++ ", " ++ numStr lo) := by
      simp [getCoordinates, hla, hlo, h1, h2]
    exact ⟨hc, by simp [getGoogleMapsUrl, hc]⟩
  · unfold getGoogleMapsUrl
    cases hc : getCoordinates loc <;> simp [hc]
  · rintro rfl
    rfl

/-- C7 witness: concrete nonzero coordinates yield the template string
and the map link. -/
theorem c7_coordinates_witness :
    getCoordinates (some ⟨some 7, some 79, none, none, none⟩) =
      some (numStr 7 ++ ", " ++ numStr 79) ∧
    getGoogleMapsUrl (some ⟨some 7, some 79, none, none, none⟩) =
      some ("https://www.google.com/maps?q=" ++ (numStr 7 ++ ", " ++ numStr 79)) :=
  (c7_coordinates (some ⟨some 7, some 79, none, none, none⟩)).2.1
    ⟨some 7, some 79, none, none, none⟩ 7 79 rfl rfl rfl (by norm_num) (by norm_num)

/-- C7 counterexample: on the equator both coordinates are present, yet
`getCoordinates` yields nothing and no map link is produced, refuting
"produced exactly when both latitude and longitude are present". -/
theorem c7_counterexample :
    equatorLoc.latitude.isSome = true ∧ equatorLoc.longitude.isSome = true ∧
    getCoordinates (some equatorLoc) = none ∧
    getGoogleMapsUrl (some equatorLoc) = none := by
  decide

/-- C8 (confirmed): clicking the same sort key twice in a row toggles the
direction while a new key defaults to ascending; and a pair of records
where either side is missing the sort key compares as `0` and keeps its
relative order through the (stable) sort. -/
theorem c8_sort_toggle_and_stability (k : ColKey) (cfg : SortConfig) (a b : Submission)
    (l : List Submission) :
    (handleSort k (handleSort k cfg)).direction ≠ (handleSort k cfg).direction ∧
    (handleSort k cfg).key = k ∧
    (cfg.key ≠ k → (handleSort k cfg).direction = .asc) ∧
    ((a.get cfg.key = none ∨ b.get cfg.key = none) → compareSubmissions cfg a b = 0) ∧
    ((a.get cfg.key = none ∨ b.get cfg.key = none) → [a, b].Sublist l →
      [a, b].Sublist (sortSubmissions cfg l)) := by
  have hcmp : (a.get cfg.key = none ∨ b.get cfg.key = none) →
      compareSubmissions cfg a b = 0 := by
    rintro (h | h) <;> simp [compareSubmissions, h, jsTruthy]
  refine ⟨?_, rfl, ?_, hcmp, fun h hsub => ?_⟩
  · rcases cfg with ⟨ck, cd⟩
    by_cases hk : ck = k <;> cases cd <;> simp [handleSort, hk]
  · intro hne
    simp [handleSort, hne]
  · show [a, b].Sublist (List.insertionSort (sortLE cfg) l)
    exact List.pair_sublist_insertionSort (le_of_eq (hcmp h)) hsub

/-- C8 witness: a concrete double click on `name` toggles, and a record
missing `submittedAt` keeps its place before a populated one under the
initial sort. -/
theorem c8_sort_toggle_and_stability_witness :
    (handleSort .name (handleSort .name initialSortConfig)).direction ≠
      (handleSort .name initialSortConfig).direction ∧
    compareSubmissions initialSortConfig subC subA = 0 ∧
    [subC, subA].Sublist (sortSubmissions initialSortConfig [subC, subA, subB]) := by
  have h := c8_sort_toggle_and_stability ColKey.name initialSortConfig subC subA
    [subC, subA, subB]
  exact ⟨h.1, h.2.2.2.1 (Or.inl rfl), h.2.2.2.2 (Or.inl rfl) (by decide)⟩

/-- C9 (confirmed): the export text is the header row of the visible
column names in declared order followed by one row per filtered record
over the visible columns; string values are quoted with inner quotes
doubled (the spec's `Jane "JJ" Doe, Esq.` example included) and missing
fields serialise as empty without failing the export. -/
theorem c9_export (visible : ColKey → Bool) (term : String) (subs : List Submission) :
    handleExport visible term subs =
      String.intercalate "\n"
        (csvHeader visible :: (filterSubmissions visible term subs).map (csvRow visible)) ∧
    escapeCsv "Jane \"JJ\" Doe, Esq." = "\"Jane \"\"JJ\"\" Doe, Esq.\"" ∧
    csvCell none = "" ∧
    handleExport onlyNameEmail "" [janeSub] =
      "name,email\n\"Jane \"\"JJ\"\" Doe, Esq.\"," := by
  refine ⟨rfl, by decide, rfl, by decide⟩

/-- C10 (corrected): the display string joins the present-and-nonempty
members of city/region/country with `", "` (JS truthiness also drops a
present empty string, which the claim's "missing" does not cover);
`"N/A"` for an absent location or when no member survives; a nonempty
city alone displays as exactly the city. -/
theorem c10_location_display (loc : DashLocation) :
    getLocationString none = "N/A" ∧
    (pushIfTruthy loc.city = [] → pushIfTruthy loc.region = [] →
      pushIfTruthy loc.country = [] → getLocationString (some loc) = "N/A") ∧
    (∀ c, loc.city = some c → c ≠ "" →
      pushIfTruthy loc.region = [] → pushIfTruthy loc.country = [] →
      getLocationString (some loc) = c) ∧
    (∀ parts,
      parts = pushIfTruthy loc.city ++ pushIfTruthy loc.region ++ pushIfTruthy loc.country →
      parts ≠ [] → getLocationString (some loc) = String.intercalate ", " parts) := by
  refine ⟨rfl, ?_, ?_, ?_⟩
  · intro h1 h2 h3
    simp [getLocationString, h1, h2, h3]
  · intro c hc hne h2 h3
    have hcity : pushIfTruthy loc.city = [c] := by
      rw [hc]
      simp [pushIfTruthy, hne]
    have hparts : pushIfTruthy loc.city ++ pushIfTruthy loc.region ++
        pushIfTruthy loc.country = [c] := by
      rw [hcity, h2, h3]
      rfl
    simp only [getLocationString]
    rw [hparts]
    have hone : ([c] : List String).length > 0 := Nat.one_pos
    rw [if_pos hone]
    rfl
  · intro parts hp hne
    subst hp
    have hlen : 0 < (pushIfTruthy loc.city ++ pushIfTruthy loc.region ++
        pushIfTruthy loc.country).length := List.length_pos.mpr hne
    simp only [getLocationString]
    rw [if_pos hlen]

/-- C10 witness: a location with only a nonempty city displays as the
city with no separators. -/
theorem c10_location_display_witness :
    getLocationString (some ⟨none, none, some "Colombo", none, none⟩) = "Colombo" :=
  (c10_location_display ⟨none, none, some "Colombo", none, none⟩).2.2.1 "Colombo"
    rfl (by decide) rfl rfl

/-- C10 counterexample: a location whose only present member is the empty
city displays `"N/A"`, not the city value, refuting the claim for
present-but-empty ("missing" vs falsy) members. -/
theorem c10_counterexample :
    emptyCityLoc.city = some "" ∧ emptyCityLoc.region = none ∧ emptyCityLoc.country = none ∧
    getLocationString (some emptyCityLoc) = "N/A" ∧ ("N/A" : String) ≠ "" := by
  decide

end LocationApp
